import Mathlib

/-!
Verification of the natural-language specification of the RLT_test
video-analytics bot against a shallow embedding of its Python source.

The embedding models Python strings as lists of characters (`Str`).
The functions below are direct translations of:
  * `LLMService._validate_sql`  (src/bot/llm_service.py, lines 107-124)
  * `LLMService._extract_sql`   (src/bot/llm_service.py, lines 126-151)
  * `LLMService.generate_sql`   (src/bot/llm_service.py, lines 153-196),
    from the point where the LLM response text is in hand
  * `Database.execute_query`    (src/bot/database.py, lines 44-83),
    with the network fetch abstracted as a list of rows of cells
  * `QueryBuilder.execute`      (src/bot/query_builder.py, lines 17-28)
  * `handle_text_message`       (src/bot/handlers.py, lines 26-68),
    from the point where the LLM response text is in hand.

Python library primitives used by that code (`str.strip`, `str.upper`,
`str.startswith`, `in` on strings, `str.split`, `str.join`, `float(...)`,
`int(...)`, `str(...)` on numbers) are modelled below with matching
semantics on the character ranges the claims exercise (ASCII program
text; `float` parsing without underscores, infinities or NaN, which the
database cells in scope never produce).
-/

set_option maxRecDepth 4000

abbrev Str := List Char

/-- Python whitespace test used by `str.strip()` (ASCII range). -/
def pyWhitespace (c : Char) : Bool :=
  c = ' ' || c = '\t' || c = '\n' || c = '\r' || c = '\x0b' || c = '\x0c'

/-- Left part of Python `str.strip()`. -/
def stripLeft (s : Str) : Str := s.dropWhile pyWhitespace

/-- Right part of Python `str.strip()`. -/
def stripRight (s : Str) : Str := (s.reverse.dropWhile pyWhitespace).reverse

/-- Python `str.strip()`: drop leading and trailing whitespace. -/
def strip (s : Str) : Str := stripRight (stripLeft s)

/-- Python `str.upper()` on the ASCII letters the validator meets. -/
def toUpperStr (s : Str) : Str := s.map Char.toUpper

/-- Python substring test `pat in s`. -/
def isSubstrOf (pat : Str) : Str → Bool
  | [] => List.isPrefixOf pat []
  | c :: rest => List.isPrefixOf pat (c :: rest) || isSubstrOf pat rest

/-- Python `s.split(chr(10))`: split on newline, keeping empty pieces;
the result is always nonempty. -/
def splitOnNl : Str → List Str
  | [] => [[]]
  | c :: rest =>
    if c = '\n' then [] :: splitOnNl rest
    else
      match splitOnNl rest with
      | [] => [[c]]
      | l :: ls => (c :: l) :: ls

/-- Python `(chr(10)).join(lines)`. -/
def joinNl (lines : List Str) : Str := List.intercalate ['\n'] lines

/-- The denylist of `LLMService._validate_sql` (llm_service.py line 119). -/
def dangerous_keywords : List Str :=
  ["DROP".data, "DELETE".data, "UPDATE".data, "INSERT".data,
   "ALTER".data, "TRUNCATE".data, "CREATE".data, "EXEC".data]

/-- `LLMService._validate_sql` (llm_service.py lines 107-124): uppercase the
stripped statement, require a `SELECT` prefix, and reject when any denylisted
keyword occurs anywhere as a substring (Python `keyword in sql_upper`). -/
def validate_sql (sql : Str) : Bool :=
  let sqlUpper := toUpperStr (strip sql)
  if !(List.isPrefixOf ("SELECT".data) sqlUpper) then false
  else if dangerous_keywords.any (fun kw => isSubstrOf kw sqlUpper) then false
  else true

/-- Which internal check of `_validate_sql` produced the rejection. -/
inductive RejectReason : Type
  | notASelect : RejectReason
  | forbiddenKeyword (kw : Str) : RejectReason
deriving DecidableEq

/-- `_validate_sql` again, recording which check fired: `none` means the
statement is accepted; otherwise the reason is the early `return False` at
line 116 (`notASelect`) or the first denylisted keyword found by the loop at
lines 120-122 (`forbiddenKeyword`). -/
def validate_sql_reason (sql : Str) : Option RejectReason :=
  let sqlUpper := toUpperStr (strip sql)
  if !(List.isPrefixOf ("SELECT".data) sqlUpper) then some RejectReason.notASelect
  else
    match dangerous_keywords.find? (fun kw => isSubstrOf kw sqlUpper) with
    | some kw => some (RejectReason.forbiddenKeyword kw)
    | none => none

/-- The trailing-terminator step of `_extract_sql` (llm_service.py
lines 147-149): drop one trailing semicolon when present. -/
def dropTrailingSemi (sql : Str) : Str :=
  if sql.getLast? = some ';' then sql.dropLast else sql

/-- The last-line test of `_extract_sql` (llm_service.py line 141):
Python `lines and lines[-1].strip() == x` for the closing fence. -/
def lastLineIsFence (lines : List Str) : Bool :=
  match lines.getLast? with
  | some l => strip l = "```".data
  | none => false

/-- The first-line step of the fenced branch of `_extract_sql`
(llm_service.py lines 138-139): drop the first line when its stripped form
starts with the fence marker. -/
def dropFenceHead (lines : List Str) : List Str :=
  if List.isPrefixOf ("```".data) (strip lines.headI) then lines.tail else lines

/-- The last-line step of the fenced branch of `_extract_sql`
(llm_service.py lines 140-142): drop the last line when it is exactly the
fence marker. -/
def dropFenceLast (lines : List Str) : List Str :=
  if lastLineIsFence lines then lines.dropLast else lines

/-- The fenced-block branch of `_extract_sql` (llm_service.py
lines 135-143): split into lines, apply the two line-dropping steps, join
back. -/
def stripFence (sql : Str) : Str :=
  joinNl (dropFenceLast (dropFenceHead (splitOnNl sql)))

/-- `LLMService._extract_sql` (llm_service.py lines 126-151): strip, remove a
leading code fence block when present, strip again, drop a trailing
semicolon. -/
def extract_sql (response : Str) : Str :=
  dropTrailingSemi (strip
    (if List.isPrefixOf ("```".data) (strip response) then stripFence (strip response)
     else strip response))

/-- Outcome of `LLMService.generate_sql` (llm_service.py lines 181-192) once
the LLM response text is available: `emptyExtraction` and `rejected sql` are
the two `ValueError`s raised there, `ok sql` is the normal return. -/
inductive GenResult : Type
  | emptyExtraction : GenResult
  | rejected (sql : Str) : GenResult
  | ok (sql : Str) : GenResult
deriving DecidableEq

/-- `LLMService.generate_sql` after the LLM call: extract, fail on an empty
string, validate, fail on an unsafe statement, otherwise return the SQL. -/
def generate_sql (sqlResponse : Str) : GenResult :=
  let sql := extract_sql sqlResponse
  if sql = [] then GenResult.emptyExtraction
  else if !(validate_sql sql) then GenResult.rejected sql
  else GenResult.ok sql

/-- A raw first cell of a query result, as `Database.execute_query`
distinguishes them at runtime (database.py lines 69-79): a Python `int`,
a Python `float` (modelled as an exact rational), `None`, or any other
value via its textual representation. -/
inductive Cell : Type
  | int (n : Int) : Cell
  | float (q : Rat) : Cell
  | null : Cell
  | text (s : Str) : Cell

/-- Digits-to-number accumulator used by the `float(...)` model. -/
def natFromDigits (ds : Str) : Nat :=
  ds.foldl (fun a c => a * 10 + (c.toNat - 48)) 0

/-- Exponent suffix of a float literal: optional sign then digits,
nothing after. -/
def expFromSuffix (s : Str) : Option Int :=
  match s with
  | '+' :: r =>
    if !r.isEmpty && r.all Char.isDigit then some (natFromDigits r : Int) else none
  | '-' :: r =>
    if !r.isEmpty && r.all Char.isDigit then some (-(natFromDigits r : Int)) else none
  | r =>
    if !r.isEmpty && r.all Char.isDigit then some (natFromDigits r : Int) else none

/-- Python `float(s)` on a string, modelled exactly over the rationals for
the ordinary literal forms (optional surrounding whitespace, optional sign,
digits with an optional decimal point, optional exponent); `none` models the
`ValueError` raised for anything else. Underscore separators, `inf` and
`nan` are outside the cells this program meets and are mapped to `none`. -/
def pyFloat (s : Str) : Option Rat :=
  let t := strip s
  let signed :=
    match t with
    | '+' :: r => (false, r)
    | '-' :: r => (true, r)
    | r => (false, r)
  let neg := signed.1
  let t1 := signed.2
  let ip := t1.takeWhile Char.isDigit
  let r1 := t1.dropWhile Char.isDigit
  let fpr :=
    match r1 with
    | '.' :: r => (r.takeWhile Char.isDigit, r.dropWhile Char.isDigit)
    | r => (([] : Str), r)
  let fp := fpr.1
  let r2 := fpr.2
  if ip.isEmpty && fp.isEmpty then none
  else
    let mantNum : Int := (natFromDigits (ip ++ fp) : Nat)
    let signedNum : Int := if neg then -mantNum else mantNum
    let mkVal : Int → Rat := fun e =>
      if 0 ≤ e then mkRat (signedNum * ((10 ^ e.natAbs : Nat) : Int)) (10 ^ fp.length)
      else mkRat signedNum (10 ^ fp.length * 10 ^ e.natAbs)
    match r2 with
    | [] => some (mkVal 0)
    | 'e' :: r => (expFromSuffix r).map mkVal
    | 'E' :: r => (expFromSuffix r).map mkVal
    | _ => none

/-- The per-cell coercion of `Database.execute_query` (database.py
lines 68-79): numeric values pass through `float(...)`, `None` becomes `0`,
anything else is parsed as a float with `0` as the logged fallback. Total by
construction, matching the code's catch of `ValueError`/`TypeError`. -/
def normalize_cell (c : Cell) : Rat :=
  match c with
  | Cell.int n => (n : Rat)
  | Cell.float q => q
  | Cell.null => 0
  | Cell.text s =>
    match pyFloat s with
    | some q => q
    | none => 0

/-- `Database.execute_query` (database.py lines 57-79) after the fetch, on
the fetched rows: an empty result set returns `0`; otherwise the first cell
of the first row is normalized. `none` models the uncaught `IndexError` when
the first row has no columns (the code indexes `first_row[0]` directly). -/
def execute_query (rows : List (List Cell)) : Option Rat :=
  match rows with
  | [] => some 0
  | firstRow :: _ =>
    match firstRow with
    | [] => none
    | firstValue :: _ => some (normalize_cell firstValue)

/-- `QueryBuilder.execute` (query_builder.py lines 17-28) with the network
fetch abstracted: `fetch sql = none` models a raised backend error, which
propagates; otherwise `Database.execute_query` runs on the fetched rows.
The `result if result is not None else 0.0` fallback is unreachable because
`execute_query` returns a number on every normal exit, so the value is
passed through unchanged. -/
def qb_execute (fetch : Str → Option (List (List Cell))) (sql : Str) :
    Option Rat :=
  (fetch sql).bind execute_query

/-- Python `int(r)` on a float: truncation toward zero. -/
def pyInt (r : Rat) : Int :=
  if r.num < 0 then -((r.num.natAbs / r.den : Nat) : Int)
  else ((r.num.natAbs / r.den : Nat) : Int)

/-- Decimal digits of a natural number, as Python `str(int)` prints them. -/
def natToStrAux : Nat → Nat → Str
  | 0, _ => []
  | fuel + 1, n =>
    if n < 10 then [Char.ofNat (48 + n)]
    else natToStrAux fuel (n / 10) ++ [Char.ofNat (48 + n % 10)]

/-- Python `str(n)` for an integer `n`. -/
def natToStr (n : Nat) : Str := natToStrAux (n + 1) n

/-- Python `str(i)` for an `int` value `i`. -/
def intToStr (i : Int) : Str :=
  if i < 0 then '-' :: natToStr i.natAbs else natToStr i.natAbs

/-- Fractional decimal digits of `num/den`, emitted until the remainder
vanishes (fuel-bounded; every value this program renders terminates). -/
def fracDigitsStr : Nat → Nat → Nat → Str
  | 0, _, _ => []
  | fuel + 1, num, den =>
    if num = 0 then []
    else Char.ofNat (48 + (num * 10) / den) :: fracDigitsStr fuel ((num * 10) % den) den

/-- Python `str(r)` for a non-integral float whose value has a terminating
decimal expansion (every IEEE float does): sign, integer part, dot,
fraction digits. -/
def decStr (r : Rat) : Str :=
  let sign := if r < 0 then ['-'] else ([] : Str)
  let n := r.num.natAbs
  let d := r.den
  sign ++ natToStr (n / d) ++
    (if n % d = 0 then [] else '.' :: fracDigitsStr 64 (n % d) d)

/-- The answer formatting of `handle_text_message` (handlers.py lines 53-57):
`str(int(result))` when `result == int(result)`, else `str(result)`. -/
def render (result : Rat) : Str :=
  if result = (pyInt result : Rat) then intToStr (pyInt result) else decStr result

/-- `handle_text_message` (handlers.py lines 43-68) from the point where the
LLM response text is available, with the database fetch passed in as a
function. The first component lists every SQL string handed to the executor;
the second is the text answered to the user: `f"Ошибка: {str(e)}"` for the
two `ValueError`s of `generate_sql`, the fixed generic message for any
backend exception, and the rendered number on success. -/
def handle_message (fetch : Str → Option (List (List Cell)))
    (llmResponse : Str) : List Str × Str :=
  match generate_sql llmResponse with
  | GenResult.emptyExtraction =>
    ([], "Ошибка: Не удалось извлечь SQL из ответа LLM".data)
  | GenResult.rejected sql =>
    ([], "Ошибка: Небезопасный SQL запрос: ".data ++ sql)
  | GenResult.ok sql =>
    ([sql],
      match qb_execute fetch sql with
      | some r => render r
      | none =>
        "Произошла ошибка при обработке вашего запроса. Попробуйте переформулировать вопрос.".data)

/-- The single-quote character, used to spell SQL date literals. -/
def squote : Char := Char.ofNat 39

/-- The bare SQL statement of end-to-end scenario 2 of the specification:
`SELECT COALESCE(SUM(delta_views_count),0) FROM video_snapshots WHERE
DATE(created_at)=DATE (quote)2025-11-28(quote)`. -/
def scenario2sql : Str :=
  "SELECT COALESCE(SUM(delta_views_count),0) FROM video_snapshots WHERE DATE(created_at)=DATE ".data
    ++ (squote :: "2025-11-28".data) ++ [squote]

/-- The fenced LLM response of end-to-end scenario 2: the statement wrapped
in a ```sql code fence with a trailing semicolon. -/
def scenario2response : Str :=
  "```".data ++ "sql\n".data ++ scenario2sql ++ ";\n".data ++ "```".data

/-- What `List.find?` returns is a member satisfying the predicate. -/
theorem find?_spec (p : Str → Bool) (l : List Str) (a : Str)
    (h : l.find? p = some a) : a ∈ l ∧ p a = true := by
  induction l with
  | nil => simp [List.find?] at h
  | cons x xs ih =>
    rw [List.find?_cons] at h
    by_cases hx : p x = true
    · simp only [hx] at h
      injection h with h2
      subst h2
      exact ⟨List.mem_cons_self x xs, hx⟩
    · simp only [Bool.eq_false_iff.mpr hx] at h
      obtain ⟨hm, hp⟩ := ih h
      exact ⟨List.mem_cons_of_mem x hm, hp⟩

/-- `List.any` holds exactly when `List.find?` finds a witness. -/
theorem any_eq_isSome_find? (p : Str → Bool) (l : List Str) :
    l.any p = (l.find? p).isSome := by
  induction l with
  | nil => rfl
  | cons x xs ih =>
    by_cases h : p x <;> simp [List.any_cons, List.find?_cons, h, ih]


/-- **C1** (code_bug evaluation): for the end-to-end scenario-2 SQL the
extraction step does strip the fences and the trailing terminator, but
validation then *fails*, not succeeds: the substring check of
`_validate_sql` finds the denylisted token `CREATE` inside the column name
`created_at`, so `generate_sql` rejects the statement even though no
denylisted token occurs as a token. -/
theorem claim_C1 :
    extract_sql scenario2response = scenario2sql ∧
    validate_sql scenario2sql = false ∧
    validate_sql_reason scenario2sql =
      some (RejectReason.forbiddenKeyword ("CREATE".data)) ∧
    isSubstrOf ("CREATE".data) (toUpperStr (strip scenario2sql)) = true ∧
    generate_sql scenario2response = GenResult.rejected scenario2sql := by
  decide

/-- **C2** (counterexample): the user-visible failure message for an unsafe
SQL string is not a fixed generic rejection — it embeds the rejected SQL
text, and two distinct unsafe statements produce two distinct messages. -/
theorem claim_C2_counterexample :
    isSubstrOf ("DROP TABLE videos".data)
      ((handle_message (fun _ => some []) ("DROP TABLE videos;".data)).2) = true ∧
    (handle_message (fun _ => some []) ("DROP TABLE videos;".data)).2 ≠
      (handle_message (fun _ => some []) ("DELETE FROM videos;".data)).2 := by
  decide

/-- **C2** (amended): for every candidate SQL that fails validation, the
message shown to the end user is the fixed prefix `Ошибка: Небезопасный SQL
запрос: ` followed by the rejected SQL text itself, so the rejected
statement is echoed verbatim to the user and distinct unsafe statements
yield distinct messages. -/
theorem claim_C2 (fetch : Str → Option (List (List Cell)))
    (llmResponse sql : Str)
    (h : generate_sql llmResponse = GenResult.rejected sql) :
    (handle_message fetch llmResponse).2 =
      "Ошибка: Небезопасный SQL запрос: ".data ++ sql := by
  unfold handle_message
  rw [h]

/-- Witness for the amended C2 at a concrete unsafe response. -/
theorem claim_C2_witness :
    (handle_message (fun _ => some []) ("DROP TABLE videos;".data)).2 =
      "Ошибка: Небезопасный SQL запрос: ".data ++ "DROP TABLE videos".data :=
  claim_C2 (fun _ => some []) ("DROP TABLE videos;".data)
    ("DROP TABLE videos".data) (by decide)

/-- **C3**: no SQL string is ever handed to the executor unless it passed
validation: whatever the database behaviour and the LLM response, every
element of the executed-statements list of `handle_message` satisfies
`validate_sql`. -/
theorem claim_C3 (fetch : Str → Option (List (List Cell)))
    (llmResponse sql : Str)
    (h : sql ∈ (handle_message fetch llmResponse).1) :
    validate_sql sql = true := by
  unfold handle_message at h
  cases hg : generate_sql llmResponse with
  | emptyExtraction => rw [hg] at h; simp at h
  | rejected s => rw [hg] at h; simp at h
  | ok s =>
    rw [hg] at h
    simp at h
    subst h
    unfold generate_sql at hg
    by_cases he : extract_sql llmResponse = []
    · simp [he] at hg
    · by_cases hv : validate_sql (extract_sql llmResponse) = true
      · simp only [he, if_false, hv, Bool.not_true, if_neg] at hg
        simp at hg
        rw [← hg]
        exact hv
      · simp [he, hv] at hg

/-- Witness for C3 at a concrete request that reaches execution. -/
theorem claim_C3_witness : validate_sql ("SELECT 1".data) = true :=
  claim_C3 (fun _ => some []) ("SELECT 1".data) ("SELECT 1".data) (by decide)

/-- **C4**: the leading-token rule of the validator: the rejection reason is
`notASelect` exactly when the stripped, uppercased statement does not begin
with `SELECT`; every accepted statement begins with `SELECT`
case-insensitively; `select`/`Select`/`SELECT` variants are all accepted as
the leading token, and `UPDATE videos SET views_count=0` is rejected with
`notASelect`. -/
theorem claim_C4 :
    (∀ sql : Str, validate_sql_reason sql = some RejectReason.notASelect ↔
      List.isPrefixOf ("SELECT".data) (toUpperStr (strip sql)) = false) ∧
    (∀ sql : Str, validate_sql sql = true →
      List.isPrefixOf ("SELECT".data) (toUpperStr (strip sql)) = true) ∧
    validate_sql ("select count(*) from videos".data) = true ∧
    validate_sql ("Select count(*) from videos".data) = true ∧
    validate_sql ("SELECT COUNT(*) FROM videos".data) = true ∧
    validate_sql_reason ("UPDATE videos SET views_count=0".data) =
      some RejectReason.notASelect ∧
    validate_sql ("UPDATE videos SET views_count=0".data) = false := by
  refine ⟨?_, ?_, by decide, by decide, by decide, by decide, by decide⟩
  · intro sql
    unfold validate_sql_reason
    by_cases h : List.isPrefixOf ("SELECT".data) (toUpperStr (strip sql)) = true
    · simp only [h, Bool.not_true, if_neg, Bool.false_eq_true, not_false_iff]
      cases hf : dangerous_keywords.find?
          (fun kw => isSubstrOf kw (toUpperStr (strip sql))) <;>
        simp [hf, h]
    · have h' : List.isPrefixOf ("SELECT".data) (toUpperStr (strip sql)) = false :=
        Bool.eq_false_iff.mpr h
      simp [h']
  · intro sql hv
    unfold validate_sql at hv
    by_cases h : List.isPrefixOf ("SELECT".data) (toUpperStr (strip sql)) = true
    · exact h
    · have h' : List.isPrefixOf ("SELECT".data) (toUpperStr (strip sql)) = false :=
        Bool.eq_false_iff.mpr h
      simp [h'] at hv

/-- Witness for C4 at a lowercase select. -/
theorem claim_C4_witness :
    List.isPrefixOf ("SELECT".data) (toUpperStr (strip ("select 1".data))) = true :=
  claim_C4.2.1 ("select 1".data) (by decide)

/-- **C5**: the denylist rule of the validator: any statement containing a
denylisted token anywhere (in any letter case, via the uppercased stripped
text) is rejected; when the statement does begin with `SELECT`, the recorded
reason is `forbiddenKeyword` naming a contained denylisted token; the two
spec examples behave as stated. -/
theorem claim_C5 :
    (∀ sql kw : Str, kw ∈ dangerous_keywords →
      isSubstrOf kw (toUpperStr (strip sql)) = true → validate_sql sql = false) ∧
    (∀ sql : Str, List.isPrefixOf ("SELECT".data) (toUpperStr (strip sql)) = true →
      (∃ kw ∈ dangerous_keywords, isSubstrOf kw (toUpperStr (strip sql)) = true) →
      ∃ kw2 ∈ dangerous_keywords, isSubstrOf kw2 (toUpperStr (strip sql)) = true ∧
        validate_sql_reason sql = some (RejectReason.forbiddenKeyword kw2)) ∧
    validate_sql_reason ("select * from videos; DROP TABLE videos".data) =
      some (RejectReason.forbiddenKeyword ("DROP".data)) ∧
    validate_sql ("select * from videos; DROP TABLE videos".data) = false ∧
    validate_sql ("SELECT COUNT(*) FROM videos".data) = true := by
  refine ⟨?_, ?_, by decide, by decide, by decide⟩
  · intro sql kw hmem hsub
    unfold validate_sql
    by_cases h : List.isPrefixOf ("SELECT".data) (toUpperStr (strip sql)) = true
    · have hany : dangerous_keywords.any
          (fun kw => isSubstrOf kw (toUpperStr (strip sql))) = true :=
        List.any_eq_true.mpr ⟨kw, hmem, hsub⟩
      simp [h, hany]
    · have h' : List.isPrefixOf ("SELECT".data) (toUpperStr (strip sql)) = false :=
        Bool.eq_false_iff.mpr h
      simp [h']
  · intro sql h hex
    have hany : dangerous_keywords.any
        (fun kw => isSubstrOf kw (toUpperStr (strip sql))) = true := by
      obtain ⟨kw, hmem, hsub⟩ := hex
      exact List.any_eq_true.mpr ⟨kw, hmem, hsub⟩
    rw [any_eq_isSome_find?] at hany
    obtain ⟨kw2, hfind⟩ := Option.isSome_iff_exists.mp hany
    obtain ⟨hmem2, hsub2⟩ := find?_spec _ _ _ hfind
    refine ⟨kw2, hmem2, hsub2, ?_⟩
    unfold validate_sql_reason
    simp [h, hfind]

/-- Witness for C5 at a concrete keyword-carrying statement. -/
theorem claim_C5_witness : validate_sql ("select DROP".data) = false :=
  claim_C5.1 ("select DROP".data) ("DROP".data) (by decide) (by decide)

/-- **C7**: an empty result set is a valid execution, not a failure: the
executor returns the canonical zero on zero rows, and whenever the pipeline
reaches execution against a database whose fetch matches nothing, the user
receives the rendered answer `0`. -/
theorem claim_C7 :
    execute_query [] = some 0 ∧
    ∀ llmResponse sql : Str, generate_sql llmResponse = GenResult.ok sql →
      (handle_message (fun _ => some []) llmResponse).2 = "0".data := by
  refine ⟨rfl, ?_⟩
  intro llmResponse sql h
  unfold handle_message
  rw [h]
  show (match qb_execute (fun _ => some []) sql with
    | some r => render r
    | none =>
      "Произошла ошибка при обработке вашего запроса. Попробуйте переформулировать вопрос.".data)
    = "0".data
  show render 0 = "0".data
  decide

/-- Witness for C7 at a concrete aggregate query. -/
theorem claim_C7_witness :
    (handle_message (fun _ => some []) ("SELECT COUNT(*) FROM videos".data)).2
      = "0".data :=
  claim_C7.2 ("SELECT COUNT(*) FROM videos".data)
    ("SELECT COUNT(*) FROM videos".data) (by decide)

/-- **C8**: normalization is total and branches as specified: a numeric cell
converts directly, a null cell maps to 0, a textual cell maps to its parsed
value when `float(...)` succeeds and to 0 when parsing fails; the spec's
what the return type `Rat` of `normalize_cell` records: every branch
produces a number and none raises. -/
theorem claim_C8 :
    (∀ n : Int, normalize_cell (Cell.int n) = (n : Rat)) ∧
    (∀ q : Rat, normalize_cell (Cell.float q) = q) ∧
    normalize_cell Cell.null = 0 ∧
    (∀ (s : Str) (q : Rat), pyFloat s = some q →
      normalize_cell (Cell.text s) = q) ∧
    (∀ s : Str, pyFloat s = none → normalize_cell (Cell.text s) = 0) ∧
    normalize_cell (Cell.text ("7".data)) = 7 ∧
    normalize_cell (Cell.text ("abc".data)) = 0 ∧
    normalize_cell (Cell.int 42) = 42 := by
  refine ⟨fun n => rfl, fun q => rfl, rfl, ?_, ?_, by decide, by decide, by decide⟩
  · intro s q h; simp only [normalize_cell]; rw [h]
  · intro s h; simp only [normalize_cell]; rw [h]

/-- Witness for C8 at concrete textual cells. -/
theorem claim_C8_witness :
    normalize_cell (Cell.text ("7".data)) = 7 ∧
    normalize_cell (Cell.text ("zz".data)) = 0 :=
  ⟨claim_C8.2.2.2.1 ("7".data) 7 (by decide),
   claim_C8.2.2.2.2.1 ("zz".data) (by decide)⟩

/-- **C9**: the rendering of a numeric result is `str(int(r))` when `r`
equals its own integer truncation and the full decimal string otherwise;
`7.0` renders as `7` and `7.5` renders as `7.5`. -/
theorem claim_C9 :
    (∀ r : Rat, r = (pyInt r : Rat) → render r = intToStr (pyInt r)) ∧
    (∀ r : Rat, ¬ r = (pyInt r : Rat) → render r = decStr r) ∧
    render 7 = "7".data ∧
    render (mkRat 15 2) = "7.5".data := by
  refine ⟨?_, ?_, by decide, by decide⟩
  · intro r h; unfold render; rw [if_pos h]
  · intro r h; unfold render; rw [if_neg h]

/-- Witness for C9 at both rendering branches. -/
theorem claim_C9_witness :
    render (mkRat 15 2) = decStr (mkRat 15 2) ∧ render 7 = intToStr (pyInt 7) :=
  ⟨claim_C9.2.1 (mkRat 15 2) (by decide), claim_C9.1 7 (by decide)⟩

/-- Extraction is the identity on a string that is already stripped, does
not begin with a fence marker, and does not end with a semicolon. -/
theorem extract_sql_fixed (t : Str) (h1 : strip t = t)
    (h2 : List.isPrefixOf ("```".data) t = false)
    (h3 : t.getLast? ≠ some ';') :
    extract_sql t = t := by
  unfold extract_sql
  rw [h1, h2]
  simp only [Bool.false_eq_true, if_false]
  rw [h1]
  unfold dropTrailingSemi
  rw [if_neg h3]

/-- **C6** (counterexample): extraction is not idempotent: one pass over
`x;;` removes a single trailing semicolon, leaving `x;`, and a second pass
removes another. -/
theorem claim_C6_counterexample :
    ¬ extract_sql (extract_sql ("x;;".data)) = extract_sql ("x;;".data) := by
  decide

/-- **C6** (amended): extraction is idempotent on every input whose
extracted form is fully stripped, does not begin with a fence marker, and
does not end with a semicolon; on such outputs re-running extraction
changes nothing. (In general a second pass can remove more, e.g. another
trailing semicolon.) -/
theorem claim_C6 (s : Str)
    (h1 : strip (extract_sql s) = extract_sql s)
    (h2 : List.isPrefixOf ("```".data) (extract_sql s) = false)
    (h3 : (extract_sql s).getLast? ≠ some ';') :
    extract_sql (extract_sql s) = extract_sql s :=
  extract_sql_fixed (extract_sql s) h1 h2 h3

/-- Witness for the amended C6 at an ordinary terminated statement. -/
theorem claim_C6_witness :
    extract_sql (extract_sql ("SELECT 1;".data)) = extract_sql ("SELECT 1;".data) :=
  claim_C6 ("SELECT 1;".data) (by decide) (by decide) (by decide)

/-- `splitOnNl` never returns the empty list. -/
theorem splitOnNl_ne_nil (s : Str) : splitOnNl s ≠ [] := by
  induction s with
  | nil => simp [splitOnNl]
  | cons c r ih =>
    unfold splitOnNl
    by_cases hc : c = '\n'
    · simp [hc]
    · simp only [hc, if_false]
      cases hs : splitOnNl r <;> simp

/-- The first line produced by `splitOnNl` is the longest newline-free
prefix of the input. -/
theorem splitOnNl_headI (s : Str) :
    (splitOnNl s).headI = s.takeWhile (fun c => !(c = '\n')) := by
  induction s with
  | nil => simp [splitOnNl]
  | cons c r ih =>
    unfold splitOnNl
    by_cases hc : c = '\n'
    · simp [hc, List.takeWhile_cons]
    · simp only [hc, if_false, List.takeWhile_cons]
      cases hs : splitOnNl r with
      | nil => exact absurd hs (splitOnNl_ne_nil r)
      | cons l ls =>
        rw [hs] at ih
        simp only [List.headI] at ih
        simp [hc, ih]

/-- Right-stripping keeps a leading fence marker. -/
theorem fence_prefix_stripRight (l : Str)
    (h : ("```".data : Str) <+: l) : ("```".data : Str) <+: stripRight l := by
  obtain ⟨t, ht⟩ := h
  subst ht
  unfold stripRight
  rw [List.reverse_append, List.dropWhile_append]
  by_cases he : (List.dropWhile pyWhitespace t.reverse).isEmpty = true
  · rw [if_pos he]
    have hb : List.dropWhile pyWhitespace (("```".data : Str).reverse) =
        ("```".data : Str).reverse := by decide
    rw [hb, List.reverse_reverse]
  · rw [if_neg (by simp [he])]
    rw [List.reverse_append, List.reverse_reverse]
    exact List.prefix_append _ _

/-- Stripping keeps a leading fence marker. -/
theorem fence_prefix_strip (l : Str)
    (h : ("```".data : Str) <+: l) : ("```".data : Str) <+: strip l := by
  obtain ⟨t, ht⟩ := h
  subst ht
  unfold strip stripLeft
  rw [List.dropWhile_append]
  have hb : List.dropWhile pyWhitespace ("```".data : Str) = ("```".data : Str) := by
    decide
  rw [hb]
  rw [if_neg (by decide)]
  exact fence_prefix_stripRight _ (List.prefix_append _ _)

/-- When the stripped response starts with a fence marker, so does the
stripped first line, hence the first-line drop of `_extract_sql` always
fires together with the outer fence test. -/
theorem fence_headI (s : Str)
    (h : List.isPrefixOf ("```".data) (strip s) = true) :
    List.isPrefixOf ("```".data) (strip ((splitOnNl (strip s)).headI)) = true := by
  rw [List.isPrefixOf_iff_prefix] at h ⊢
  rw [splitOnNl_headI]
  obtain ⟨t, ht⟩ := h
  rw [← ht]
  rw [List.takeWhile_append_of_pos (by decide)]
  exact fence_prefix_strip _ (List.prefix_append _ _)

/-- **C10**: fence stripping is triggered by the leading marker alone: if
the stripped input begins with a triple-backtick marker and no closing
fence line follows, extraction still removes the whole first line and
processes the remaining lines as usual (strip, then drop one trailing
semicolon), so a query sharing the opening fence line is removed with it. -/
theorem claim_C10 (s : Str)
    (h1 : List.isPrefixOf ("```".data) (strip s) = true)
    (h2 : lastLineIsFence ((splitOnNl (strip s)).tail) = false) :
    extract_sql s =
      dropTrailingSemi (strip (joinNl ((splitOnNl (strip s)).tail))) := by
  have hh := fence_headI s h1
  unfold extract_sql stripFence dropFenceHead dropFenceLast
  rw [if_pos h1, if_pos hh, if_neg (by simp [h2])]

/-- Witness for C10: a one-line response whose opening fence shares the
line with the SQL loses everything, because the whole first line is
removed. -/
theorem claim_C10_witness :
    extract_sql ("```".data ++ "sql SELECT COUNT(*) FROM videos;".data) = [] :=
  (claim_C10 ("```".data ++ "sql SELECT COUNT(*) FROM videos;".data)
    (by decide) (by decide)).trans (by decide)
